import Mathlib

/-!
Verification of the token lifecycle and request-authorization layer of the
repository (the AuthService class): a shallow embedding of the service in Lean,
with the network modelled as an explicit transport outcome and the device
key-value store as an explicit state record holding the two token keys.
-/

namespace AuthClient

/-- Sign-in credentials, from the request type declarations. -/
structure SignInRequest where
  email : String
  password : String
deriving DecidableEq, Repr

/-- Sign-up data, from the request type declarations. -/
structure SignUpRequest where
  name : String
  email : String
  password : String
deriving DecidableEq, Repr

/-- Server-side user record, passed through unmodified by the service. -/
structure User where
  id : String
  name : String
  email : String
  role : String
  isEmailVerified : Bool
  lastLogin : String
  createdAt : String
deriving DecidableEq, Repr

/-- The token object returned by the sign-in and sign-up endpoints. -/
structure AuthTokens where
  accessToken : String
  refreshToken : String
  accessTokenExpiresIn : String
  refreshTokenExpiresIn : String
deriving DecidableEq, Repr

/-- Payload of a successful sign-in or sign-up: user plus tokens. -/
structure AuthResponse where
  user : User
  tokens : AuthTokens
deriving DecidableEq, Repr

/-- Profile patch for the update-profile endpoint. -/
structure UpdateProfileRequest where
  name : Option String
deriving DecidableEq, Repr

/-- Password change data. -/
structure ChangePasswordRequest where
  currentPassword : String
  newPassword : String
deriving DecidableEq, Repr

/-- One per-field validation problem, as enumerated in an error envelope. -/
structure ValidationError where
  type : String
  value : String
  msg : String
  path : String
  location : String
deriving DecidableEq, Repr

/-- The uniform JSON envelope every endpoint answers with. The message field is
optional here so that a missing field and an empty string can both be treated
as falsy, the way the JavaScript source treats them. -/
structure ApiResponseEnvelope (α : Type) where
  status : String
  message : Option String
  data : Option α
  errors : Option (List ValidationError)
deriving DecidableEq, Repr

/-- The error value the service constructs and throws: message, HTTP-like
status code, and the optional per-field validation problems. -/
structure ApiError where
  message : String
  status : Nat
  errors : Option (List ValidationError)
deriving DecidableEq, Repr

/-- The device key-value store, restricted to the two keys the service owns.
A value of none means the key is absent from storage. -/
structure Storage where
  accessToken : Option String
  refreshToken : Option String
deriving DecidableEq, Repr

/-- The possible outcomes of the single fetch call inside makeRequest, as the
service observes them: a transport response carrying an HTTP status and a body
that either parses as the JSON envelope or does not (none), an abort fired by
the timeout timer, a connectivity failure (a TypeError whose message contains
the failed-to-fetch text), or any other exception raised during the exchange. -/
inductive TransportOutcome (α : Type) where
  | response (status : Nat) (body : Option (ApiResponseEnvelope α))
  | abortError
  | networkFailure
  | otherFailure
deriving DecidableEq, Repr

/-- JavaScript disjunction m || d on an optional string: undefined and the
empty string are both falsy, so either one yields the default. -/
def jsStringOr (m : Option String) (d : String) : String :=
  match m with
  | none => d
  | some s => if s = "" then d else s

/-- response.ok in the fetch API: the HTTP status lies in the 2xx range. -/
def respOk (status : Nat) : Bool :=
  decide (200 ≤ status) && decide (status ≤ 299)

/-- The response-classification logic of makeRequest (the body parse, the ok
check, the envelope status check and the catch clause). The source awaits
response.json() before checking response.ok, so an unparseable body lands in
the catch clause and yields status 500 regardless of the transport status.
The source throws early on a non-ok response; here the same order of checks is
written as nested conditionals. A success whose envelope has no data field is
returned as ok none (the source casts undefined to the expected type). -/
def classify {α : Type} (outcome : TransportOutcome α) :
    Except ApiError (Option α) :=
  match outcome with
  | .response status body =>
    match body with
    | none => .error ⟨"An unexpected error occurred", 500, none⟩
    | some env =>
      if respOk status then
        if env.status = "error" then
          .error ⟨env.message.getD "", status, env.errors⟩
        else
          .ok env.data
      else
        .error ⟨jsStringOr env.message "An error occurred", status, env.errors⟩
  | .abortError => .error ⟨"Request timeout", 408, none⟩
  | .networkFailure => .error ⟨"Network error. Please check your connection.", 0, none⟩
  | .otherFailure => .error ⟨"An unexpected error occurred", 500, none⟩

/-- The JSON.stringify payloads the service sends, one constructor per shape. -/
inductive BodyPayload where
  | ofSignIn (c : SignInRequest)
  | ofSignUp (u : SignUpRequest)
  | ofSignOut (refreshToken : String)
  | ofRefresh (refreshToken : String)
  | ofProfile (p : UpdateProfileRequest)
  | ofPassword (p : ChangePasswordRequest)
deriving DecidableEq, Repr

/-- The options object a call site hands to makeRequest: method, an optional
headers object, and an optional body. headers = none models an options object
with no headers key at all. -/
structure RequestOptions where
  method : String
  headers : Option (List (String × String))
  body : Option BodyPayload
deriving DecidableEq, Repr

/-- One HTTP request as actually issued by fetch. -/
structure HttpRequest where
  endpoint : String
  method : String
  headers : List (String × String)
  body : Option BodyPayload
deriving DecidableEq, Repr

/-- The headers fetch actually receives. The source builds the init object as
headers-with-default first, then spreads the whole options object after it, so
whenever the options object carries a headers key, that spread overwrites the
merged default entirely: the Content-Type default survives only when the call
site passed no headers of its own. -/
def effectiveHeaders (optionHeaders : Option (List (String × String))) :
    List (String × String) :=
  match optionHeaders with
  | some hs => hs
  | none => [("Content-Type", "application/json")]

/-- makeRequest: issues exactly one fetch with the effective headers, then
classifies the outcome. Returns the classified result together with the
request that went on the wire. -/
def makeRequest {α : Type} (endpoint : String) (options : RequestOptions)
    (outcome : TransportOutcome α) :
    Except ApiError (Option α) × HttpRequest :=
  (classify outcome,
   ⟨endpoint, options.method, effectiveHeaders options.headers, options.body⟩)

/-- storeTokens: writes both token keys from the token object. -/
def storeTokens (tokens : AuthTokens) : Storage :=
  ⟨some tokens.accessToken, some tokens.refreshToken⟩

/-- clearTokens: removes both token keys. -/
def clearTokens : Storage :=
  ⟨none, none⟩

/-- JavaScript truthiness of a stored string: present and non-empty. -/
def truthy (o : Option String) : Bool :=
  match o with
  | none => false
  | some s => s != ""

/-- getAuthHeaders: reads the access token; a missing or empty value is falsy
and raises the locally synthesized 401, otherwise a bearer header is built. -/
def getAuthHeaders (st : Storage) : Except ApiError (List (String × String)) :=
  match st.accessToken with
  | none => .error ⟨"No access token found", 401, none⟩
  | some t =>
    if t = "" then .error ⟨"No access token found", 401, none⟩
    else .ok [("Authorization", "Bearer " ++ t)]

/-- The observable effect of one public operation: its return value, the
storage state after it completes, and the HTTP requests it issued. -/
structure OpResult (α : Type) where
  result : α
  state : Storage
  requests : List HttpRequest
deriving Repr

/-- How sign-in and sign-up can fail: a thrown ApiError propagated from
makeRequest, or the TypeError raised by reading a field of an undefined
success payload before any storage write happens. -/
inductive OpFailure where
  | api (e : ApiError)
  | undefinedAccess
deriving DecidableEq, Repr

/-- signIn: posts the credentials, and on success stores both returned tokens
and hands the full payload back to the caller. On failure storage is not
touched. -/
def signIn (credentials : SignInRequest)
    (outcome : TransportOutcome AuthResponse) (st : Storage) :
    OpResult (Except OpFailure AuthResponse) :=
  let r := makeRequest "/auth/signin"
    ⟨"POST", none, some (.ofSignIn credentials)⟩ outcome
  match r.1 with
  | .error e => ⟨.error (.api e), st, [r.2]⟩
  | .ok none => ⟨.error .undefinedAccess, st, [r.2]⟩
  | .ok (some resp) => ⟨.ok resp, storeTokens resp.tokens, [r.2]⟩

/-- signUp: same contract as signIn against the sign-up endpoint. -/
def signUp (userData : SignUpRequest)
    (outcome : TransportOutcome AuthResponse) (st : Storage) :
    OpResult (Except OpFailure AuthResponse) :=
  let r := makeRequest "/auth/signup"
    ⟨"POST", none, some (.ofSignUp userData)⟩ outcome
  match r.1 with
  | .error e => ⟨.error (.api e), st, [r.2]⟩
  | .ok none => ⟨.error .undefinedAccess, st, [r.2]⟩
  | .ok (some resp) => ⟨.ok resp, storeTokens resp.tokens, [r.2]⟩

/-- signOut: if a truthy refresh token is stored, attempts the best-effort
server invalidation (building bearer headers can itself throw, which the catch
swallows just like a failed request); the finally clause clears both tokens in
every path, and no error ever reaches the caller — hence the total Unit
result. -/
def signOut (outcome : TransportOutcome Unit) (st : Storage) :
    OpResult Unit :=
  match st.refreshToken with
  | none => ⟨(), clearTokens, []⟩
  | some rt =>
    if rt = "" then ⟨(), clearTokens, []⟩
    else
      match getAuthHeaders st with
      | .error _ => ⟨(), clearTokens, []⟩
      | .ok hs =>
        let r := makeRequest "/auth/signout"
          ⟨"POST", some hs, some (.ofSignOut rt)⟩ outcome
        ⟨(), clearTokens, [r.2]⟩

/-- Success payload of the refresh endpoint. -/
structure RefreshData where
  accessToken : String
deriving DecidableEq, Repr

/-- refreshToken: a missing or empty stored refresh token returns null with no
network call; otherwise the refresh endpoint is called, and on success only
the access token key is overwritten. Any caught failure — including reading
the access token off an undefined payload — clears both tokens and returns
null. -/
def refreshToken (outcome : TransportOutcome RefreshData) (st : Storage) :
    OpResult (Option String) :=
  match st.refreshToken with
  | none => ⟨none, st, []⟩
  | some rt =>
    if rt = "" then ⟨none, st, []⟩
    else
      let r := makeRequest "/auth/refresh-token"
        ⟨"POST", none, some (.ofRefresh rt)⟩ outcome
      match r.1 with
      | .error _ => ⟨none, clearTokens, [r.2]⟩
      | .ok none => ⟨none, clearTokens, [r.2]⟩
      | .ok (some d) =>
        ⟨some d.accessToken, { st with accessToken := some d.accessToken }, [r.2]⟩

/-- getCurrentUser: the auth headers are awaited while the argument object is
built, so a missing access token raises the 401 before makeRequest ever runs;
otherwise the request is issued with exactly the bearer headers as options. -/
def getCurrentUser (outcome : TransportOutcome User) (st : Storage) :
    OpResult (Except ApiError (Option User)) :=
  match getAuthHeaders st with
  | .error e => ⟨.error e, st, []⟩
  | .ok hs =>
    let r := makeRequest "/auth/me" ⟨"GET", some hs, none⟩ outcome
    ⟨r.1, st, [r.2]⟩

/-- updateProfile: builds its own headers object with an explicit Content-Type
entry ahead of the bearer headers, then delegates to makeRequest. -/
def updateProfile (profileData : UpdateProfileRequest)
    (outcome : TransportOutcome User) (st : Storage) :
    OpResult (Except ApiError (Option User)) :=
  match getAuthHeaders st with
  | .error e => ⟨.error e, st, []⟩
  | .ok authHeaders =>
    let hs := ("Content-Type", "application/json") :: authHeaders
    let r := makeRequest "/auth/profile"
      ⟨"PUT", some hs, some (.ofProfile profileData)⟩ outcome
    ⟨r.1, st, [r.2]⟩

/-- changePassword: same header construction as updateProfile, different
endpoint and body. -/
def changePassword (passwordData : ChangePasswordRequest)
    (outcome : TransportOutcome Unit) (st : Storage) :
    OpResult (Except ApiError (Option Unit)) :=
  match getAuthHeaders st with
  | .error e => ⟨.error e, st, []⟩
  | .ok authHeaders =>
    let hs := ("Content-Type", "application/json") :: authHeaders
    let r := makeRequest "/auth/change-password"
      ⟨"PUT", some hs, some (.ofPassword passwordData)⟩ outcome
    ⟨r.1, st, [r.2]⟩

/-- isAuthenticated: the JavaScript double negation of the conjunction of the
two stored values — true exactly when both are present and non-empty. Reads
only; no request, no write. -/
def isAuthenticated (st : Storage) : OpResult Bool :=
  ⟨truthy st.accessToken && truthy st.refreshToken, st, []⟩

/-- The token-pair invariant: both keys present, or both absent. -/
def pairInv (st : Storage) : Prop :=
  st.accessToken.isSome = st.refreshToken.isSome

/-- The status field of a failed request result, if it failed. -/
def errStatus {α : Type} : Except ApiError α → Option Nat
  | .error e => some e.status
  | .ok _ => none

/-- A sample user record, for concrete witnesses. -/
def sampleUser : User :=
  ⟨"u1", "Alice", "alice@example.com", "user", true, "2024-01-02", "2023-12-01"⟩

/-- A sample token object, for concrete witnesses. -/
def sampleTokens : AuthTokens :=
  ⟨"acc-2", "ref-2", "900s", "7d"⟩

/-- A sample successful auth payload, for concrete witnesses. -/
def sampleAuth : AuthResponse :=
  ⟨sampleUser, sampleTokens⟩

/- ------------------------------------------------------------------ -/
/- Claim theorems                                                      -/
/- ------------------------------------------------------------------ -/

/-- C1: whenever a non-empty refresh token is stored and the refresh call
fails in any way the catch clause can see — server rejection, network
failure, timeout, unparseable body, or any other exception — refreshToken
returns null and afterwards neither token key is present in storage. -/
theorem refresh_fail_closed (st : Storage) (rt : String) (e : ApiError)
    (outcome : TransportOutcome RefreshData)
    (hrt : st.refreshToken = some rt) (hne : rt ≠ "")
    (hfail : classify outcome = .error e) :
    (refreshToken outcome st).result = none ∧
    (refreshToken outcome st).state.accessToken = none ∧
    (refreshToken outcome st).state.refreshToken = none := by
  simp [refreshToken, hrt, hne, makeRequest, hfail, clearTokens]

/-- C1 witness: concrete storage with both tokens set and a 401 rejection
from the refresh endpoint. -/
theorem refresh_fail_closed_witness :
    (refreshToken
        (TransportOutcome.response 401
          (some ⟨"error", some "invalid refresh token", none, none⟩))
        ⟨some "acc-1", some "ref-1"⟩).result = none ∧
    (refreshToken
        (TransportOutcome.response 401
          (some ⟨"error", some "invalid refresh token", none, none⟩))
        ⟨some "acc-1", some "ref-1"⟩).state.accessToken = none ∧
    (refreshToken
        (TransportOutcome.response 401
          (some ⟨"error", some "invalid refresh token", none, none⟩))
        ⟨some "acc-1", some "ref-1"⟩).state.refreshToken = none :=
  refresh_fail_closed ⟨some "acc-1", some "ref-1"⟩ "ref-1"
    ⟨"invalid refresh token", 401, none⟩
    (TransportOutcome.response 401
      (some ⟨"error", some "invalid refresh token", none, none⟩))
    rfl (by decide) rfl

/-- C2: whenever signIn or signUp returns successfully, the value handed back
is exactly the payload the server sent, and both storage keys hold exactly
the token strings of that payload. -/
theorem signin_signup_token_atomicity
    (c : SignInRequest) (u : SignUpRequest)
    (oi ou : TransportOutcome AuthResponse) (st st' : Storage)
    (resp resp' : AuthResponse)
    (hi : (signIn c oi st).result = .ok resp)
    (hu : (signUp u ou st').result = .ok resp') :
    classify oi = .ok (some resp) ∧
    (signIn c oi st).state.accessToken = some resp.tokens.accessToken ∧
    (signIn c oi st).state.refreshToken = some resp.tokens.refreshToken ∧
    classify ou = .ok (some resp') ∧
    (signUp u ou st').state.accessToken = some resp'.tokens.accessToken ∧
    (signUp u ou st').state.refreshToken = some resp'.tokens.refreshToken := by
  revert hi hu
  simp only [signIn, signUp, makeRequest]
  cases h1 : classify oi with
  | error e => simp
  | ok d =>
    cases d with
    | none => simp
    | some r =>
      cases h2 : classify ou with
      | error e => simp
      | ok d' =>
        cases d' with
        | none => simp
        | some r' =>
          intro hi hu
          simp only [Except.ok.injEq] at hi hu
          subst hi; subst hu
          simp [storeTokens]

/-- C2 witness: a concrete successful sign-in and sign-up. -/
theorem signin_signup_token_atomicity_witness :
    (signIn ⟨"alice@example.com", "pw"⟩
        (TransportOutcome.response 200 (some ⟨"success", some "ok", some sampleAuth, none⟩))
        ⟨none, none⟩).state.accessToken = some sampleAuth.tokens.accessToken ∧
    (signUp ⟨"Alice", "alice@example.com", "pw"⟩
        (TransportOutcome.response 201 (some ⟨"success", some "ok", some sampleAuth, none⟩))
        ⟨none, none⟩).state.refreshToken = some sampleAuth.tokens.refreshToken := by
  have h := signin_signup_token_atomicity
    ⟨"alice@example.com", "pw"⟩ ⟨"Alice", "alice@example.com", "pw"⟩
    (TransportOutcome.response 200 (some ⟨"success", some "ok", some sampleAuth, none⟩))
    (TransportOutcome.response 201 (some ⟨"success", some "ok", some sampleAuth, none⟩))
    ⟨none, none⟩ ⟨none, none⟩ sampleAuth sampleAuth rfl rfl
  exact ⟨h.2.1, h.2.2.2.2.2⟩

/-- C3: every operation of the service preserves the token-pair invariant —
starting from any storage state in which the two keys are both present or
both absent, the state after the operation completes again has them both
present or both absent. -/
theorem pair_invariant_preserved (st : Storage) (h : pairInv st) :
    (∀ c o, pairInv (signIn c o st).state) ∧
    (∀ u o, pairInv (signUp u o st).state) ∧
    (∀ o, pairInv (signOut o st).state) ∧
    (∀ o, pairInv (refreshToken o st).state) ∧
    (∀ o, pairInv (getCurrentUser o st).state) ∧
    (∀ p o, pairInv (updateProfile p o st).state) ∧
    (∀ p o, pairInv (changePassword p o st).state) ∧
    pairInv (isAuthenticated st).state := by
  obtain ⟨acc, ref⟩ := st
  refine ⟨?_, ?_, ?_, ?_, ?_, ?_, ?_, ?_⟩
  · intro c o
    simp only [signIn, makeRequest]
    cases classify o with
    | error e => exact h
    | ok d => cases d with
      | none => exact h
      | some r => simp [pairInv, storeTokens]
  · intro u o
    simp only [signUp, makeRequest]
    cases classify o with
    | error e => exact h
    | ok d => cases d with
      | none => exact h
      | some r => simp [pairInv, storeTokens]
  · intro o
    simp only [signOut]
    cases ref with
    | none => simp [pairInv, clearTokens]
    | some rt =>
      by_cases hrt : rt = ""
      · simp [hrt, pairInv, clearTokens]
      · simp only [hrt, if_false, getAuthHeaders, makeRequest]
        cases acc with
        | none => simp [pairInv, clearTokens]
        | some a =>
          by_cases ha : a = "" <;> simp [ha, pairInv, clearTokens]
  · intro o
    simp only [refreshToken]
    cases ref with
    | none => exact h
    | some rt =>
      by_cases hrt : rt = ""
      · simpa [hrt] using h
      · simp only [hrt, if_false, makeRequest]
        cases classify o with
        | error e => simp [pairInv, clearTokens]
        | ok d => cases d with
          | none => simp [pairInv, clearTokens]
          | some r => simp [pairInv]
  · intro o
    simp only [getCurrentUser, makeRequest]
    cases hga : getAuthHeaders ⟨acc, ref⟩ with
    | error e => exact h
    | ok hs => exact h
  · intro p o
    simp only [updateProfile, makeRequest]
    cases hga : getAuthHeaders ⟨acc, ref⟩ with
    | error e => exact h
    | ok hs => exact h
  · intro p o
    simp only [changePassword, makeRequest]
    cases hga : getAuthHeaders ⟨acc, ref⟩ with
    | error e => exact h
    | ok hs => exact h
  · exact h

/-- C3 witness: the invariant holds of empty storage and is preserved by a
concrete signOut there. -/
theorem pair_invariant_preserved_witness :
    pairInv (signOut TransportOutcome.abortError ⟨none, none⟩).state :=
  (pair_invariant_preserved ⟨none, none⟩ rfl).2.2.1 TransportOutcome.abortError

/-- C4: a transport-success response (status in the 2xx range) whose parsed
envelope declares status error makes makeRequest fail with an ApiError that
carries the envelope message, the envelope errors, and the transport status
code itself — and the request does not succeed. -/
theorem envelope_error_at_2xx {α : Type} (ep : String) (opts : RequestOptions)
    (status : Nat) (env : ApiResponseEnvelope α) (m : String)
    (hok : respOk status = true) (herr : env.status = "error")
    (hm : env.message = some m) :
    (makeRequest ep opts (TransportOutcome.response status (some env))).1 =
      .error ⟨m, status, env.errors⟩ := by
  simp [makeRequest, classify, hok, herr, hm]

/-- C4 witness: a 200 response whose envelope reports an error. -/
theorem envelope_error_at_2xx_witness :
    (makeRequest "/auth/me" ⟨"GET", none, none⟩
        (TransportOutcome.response 200
          (some (⟨"error", some "something failed", none, none⟩ :
            ApiResponseEnvelope User)))).1 =
      .error ⟨"something failed", 200, none⟩ :=
  envelope_error_at_2xx "/auth/me" ⟨"GET", none, none⟩ 200
    ⟨"error", some "something failed", none, none⟩ "something failed"
    (by decide) rfl rfl

/-- C5 counterexample: a 404 response whose body does not parse as the JSON
envelope. The source awaits the body parse before checking response.ok, so
the parse failure lands in the catch clause and the resulting error carries
status 500 — not the transport status 404 the claim requires. -/
theorem non2xx_unparseable_counterexample :
    errStatus (makeRequest "/auth/me" (⟨"GET", none, none⟩ : RequestOptions)
        (TransportOutcome.response 404 (none : Option (ApiResponseEnvelope User)))).1
      = some 500 ∧
    errStatus (makeRequest "/auth/me" (⟨"GET", none, none⟩ : RequestOptions)
        (TransportOutcome.response 404 (none : Option (ApiResponseEnvelope User)))).1
      ≠ some 404 :=
  ⟨rfl, by decide⟩

/-- C5 amended: a non-2xx transport response whose body parses as the JSON
envelope makes makeRequest fail with an ApiError whose status equals the
transport status; a non-2xx response whose body does not parse fails with
the synthesized status 500 instead. -/
theorem non2xx_status_preserved {α : Type} (ep : String) (opts : RequestOptions)
    (status : Nat) (env : ApiResponseEnvelope α)
    (hnot : respOk status = false) :
    (makeRequest ep opts (TransportOutcome.response status (some env))).1 =
      .error ⟨jsStringOr env.message "An error occurred", status, env.errors⟩ ∧
    (makeRequest ep opts
        (TransportOutcome.response status (none : Option (ApiResponseEnvelope α)))).1 =
      .error ⟨"An unexpected error occurred", 500, none⟩ := by
  simp [makeRequest, classify, hnot]

/-- C5 witness: a parseable 404 error envelope keeps its transport status. -/
theorem non2xx_status_preserved_witness :
    (makeRequest "/auth/me" (⟨"GET", none, none⟩ : RequestOptions)
        (TransportOutcome.response 404
          (some (⟨"error", some "Not found", none, none⟩ :
            ApiResponseEnvelope User)))).1 =
      .error ⟨"Not found", 404, none⟩ :=
  (non2xx_status_preserved "/auth/me" ⟨"GET", none, none⟩ 404
    ⟨"error", some "Not found", none, none⟩ (by decide)).1

/-- C6: the claim that every issued request carries the Content-Type header
fails on the code. The final spread of the options object overwrites the
merged default headers, so the request getCurrentUser issues carries only the
bearer header, and likewise the sign-out request; updateProfile only keeps
the header because it re-adds it by hand in its own options. -/
theorem getCurrentUser_request_lacks_content_type :
    (getCurrentUser
        (TransportOutcome.response 200
          (some ⟨"success", some "ok", some sampleUser, none⟩))
        ⟨some "tok", some "ref"⟩).requests =
      [⟨"/auth/me", "GET", [("Authorization", "Bearer tok")], none⟩] ∧
    (("Content-Type", "application/json") : String × String) ∉
      [(("Authorization", "Bearer tok") : String × String)] ∧
    (signOut
        (TransportOutcome.response 200 (some ⟨"success", some "ok", none, none⟩))
        ⟨some "tok", some "ref"⟩).requests.map HttpRequest.headers =
      [[("Authorization", "Bearer tok")]] ∧
    (updateProfile ⟨some "Bob"⟩
        (TransportOutcome.response 200
          (some ⟨"success", some "ok", some sampleUser, none⟩))
        ⟨some "tok", some "ref"⟩).requests.map HttpRequest.headers =
      [[("Content-Type", "application/json"), ("Authorization", "Bearer tok")]] := by
  refine ⟨by decide, by decide, by decide, by decide⟩

/-- C7: with no access token in storage, getCurrentUser, updateProfile and
changePassword each fail with the locally synthesized 401 ApiError, issue no
request, and leave storage unchanged. -/
theorem unauthorized_short_circuit (st : Storage)
    (h : st.accessToken = none)
    (o1 : TransportOutcome User) (p : UpdateProfileRequest)
    (o2 : TransportOutcome User) (pw : ChangePasswordRequest)
    (o3 : TransportOutcome Unit) :
    (getCurrentUser o1 st).result = .error ⟨"No access token found", 401, none⟩ ∧
    (getCurrentUser o1 st).state = st ∧
    (getCurrentUser o1 st).requests = [] ∧
    (updateProfile p o2 st).result = .error ⟨"No access token found", 401, none⟩ ∧
    (updateProfile p o2 st).state = st ∧
    (updateProfile p o2 st).requests = [] ∧
    (changePassword pw o3 st).result = .error ⟨"No access token found", 401, none⟩ ∧
    (changePassword pw o3 st).state = st ∧
    (changePassword pw o3 st).requests = [] := by
  simp [getCurrentUser, updateProfile, changePassword, getAuthHeaders, h]

/-- C7 witness: concrete storage holding only a refresh token. -/
theorem unauthorized_short_circuit_witness :
    (getCurrentUser TransportOutcome.abortError ⟨none, some "ref"⟩).result =
      .error ⟨"No access token found", 401, none⟩ ∧
    (changePassword ⟨"old", "new"⟩ TransportOutcome.abortError
        ⟨none, some "ref"⟩).requests = [] := by
  have h := unauthorized_short_circuit ⟨none, some "ref"⟩ rfl
    TransportOutcome.abortError ⟨some "Bob"⟩ TransportOutcome.abortError
    ⟨"old", "new"⟩ TransportOutcome.abortError
  exact ⟨h.1, h.2.2.2.2.2.2.2.2⟩

/-- C8: from every initial storage state and under every outcome of the
server-side call, signOut completes with the plain unit value — the embedding
returns Unit rather than a sum with an error, because the source swallows
every exception — and afterwards both token keys are absent. -/
theorem signout_unconditional (st : Storage) (o : TransportOutcome Unit) :
    (signOut o st).result = () ∧
    (signOut o st).state.accessToken = none ∧
    (signOut o st).state.refreshToken = none := by
  obtain ⟨acc, ref⟩ := st
  simp only [signOut]
  cases ref with
  | none => simp [clearTokens]
  | some rt =>
    by_cases hrt : rt = ""
    · simp [hrt, clearTokens]
    · simp only [hrt, if_false]
      cases getAuthHeaders ⟨acc, some rt⟩ with
      | error e => simp [clearTokens]
      | ok hs => simp [clearTokens, makeRequest]

/-- C9: isAuthenticated returns true exactly when both tokens are present and
non-empty in storage, issues no request, and leaves storage unchanged. -/
theorem isAuthenticated_iff_tokens (st : Storage) :
    ((isAuthenticated st).result = true ↔
      ((∃ a, st.accessToken = some a ∧ a ≠ "") ∧
       (∃ r, st.refreshToken = some r ∧ r ≠ ""))) ∧
    (isAuthenticated st).state = st ∧
    (isAuthenticated st).requests = [] := by
  obtain ⟨acc, ref⟩ := st
  refine ⟨?_, rfl, rfl⟩
  cases acc <;> cases ref <;> simp [isAuthenticated, truthy]

/-- C9 witness: both tokens stored and non-empty yields true. -/
theorem isAuthenticated_iff_tokens_witness :
    (isAuthenticated ⟨some "a", some "r"⟩).result = true :=
  (isAuthenticated_iff_tokens ⟨some "a", some "r"⟩).1.mpr
    ⟨⟨"a", rfl, by decide⟩, ⟨"r", rfl, by decide⟩⟩

/-- C10: whenever refreshToken returns null, the resulting storage state is
unauthenticated; and when no refresh token was stored at all, storage — in
particular any stored access token — is left untouched. -/
theorem refresh_null_implies_unauthenticated (st : Storage)
    (o : TransportOutcome RefreshData) :
    ((refreshToken o st).result = none →
      (isAuthenticated (refreshToken o st).state).result = false) ∧
    (st.refreshToken = none → (refreshToken o st).state = st) := by
  obtain ⟨acc, ref⟩ := st
  cases ref with
  | none =>
    refine ⟨fun _ => ?_, fun _ => rfl⟩
    simp [refreshToken, isAuthenticated, truthy]
  | some rt =>
    refine ⟨?_, by simp⟩
    by_cases hrt : rt = ""
    · intro _
      simp [refreshToken, hrt, isAuthenticated, truthy]
    · simp only [refreshToken, hrt, if_false, makeRequest]
      cases h : classify o with
      | error e =>
        intro _
        simp [isAuthenticated, truthy, clearTokens]
      | ok d =>
        cases d with
        | none =>
          intro _
          simp [isAuthenticated, truthy, clearTokens]
        | some r =>
          intro hcon
          simp at hcon

/-- C10 witness: a stored access token with no refresh token stays in place
and the state reads as unauthenticated. -/
theorem refresh_null_implies_unauthenticated_witness :
    (isAuthenticated
        (refreshToken TransportOutcome.abortError ⟨some "a", none⟩).state).result
      = false :=
  (refresh_null_implies_unauthenticated ⟨some "a", none⟩
    TransportOutcome.abortError).1 rfl

end AuthClient
